import Mathlib

/-!
victor: event supervision loops and the example bot's handler registration

A shallow embedding of

* `pkg/events/definedEvents/definedErrorEvents.go` (`InvalidAuth`, `Disconnect`),
* `examples/simpleSlack.go` (`monitorErrors`, `monitorEvents`, `addHandlers` and the
  handler functions).

Go channels are embedded as the finite sequence of values the sender emits, together with
a flag telling whether the sender closes the channel afterwards.  A consumption loop is a
total function from such a channel to the log it writes, the way it ends, and the values
it never received; what a loop does before it stops depends only on the values it has
received, so an unbounded stream is covered through its finite beginnings.  The logger is
embedded as the sequence of calls made on it.
-/

namespace Victor

/-! ## Go runtime vocabulary -/

/-- The value built by Go's `errors.New(text)`; its `Error()` method returns `text`. -/
structure GoError where
  text : String
deriving DecidableEq, Repr

/-- Go's `errors.New`. -/
def errorsNew (text : String) : GoError := ⟨text⟩

/-- The `Error()` method of the value built by `errors.New`. -/
def GoError.Error (e : GoError) : String := e.text

/-- One call on the standard logger, with its rendered operands. -/
inductive LogEntry where
  /-- `log.Println(a, b, ...)`: the operands in order. -/
  | println (operands : List String)
  /-- `log.Printf(format, v)`: the format string and the operand. -/
  | printf (format : String) (operand : String)
  /-- `log.Panic(v)`: the message is written to the log, then the goroutine panics with it. -/
  | panic (msg : String)
deriving DecidableEq, Repr

/-- How a consumption loop ends. -/
inductive Outcome where
  /-- The function executed `return`. -/
  | returned
  /-- The function panicked with this message. -/
  | panicked (msg : String)
  /-- The function is parked on a receive from a channel that is empty and never closed. -/
  | blocked
deriving DecidableEq, Repr

/-- A receive-only view of a Go channel: the values the sender emits, in emission order,
and whether the sender closes the channel after the last of them. -/
structure Chan (α : Type) where
  queue : List α
  closed : Bool

/-- The observable result of running a consumption loop on a channel. -/
structure Run (α : Type) where
  /-- The calls made on the logger, oldest first. -/
  log : List LogEntry
  /-- How the loop ended. -/
  outcome : Outcome
  /-- The emitted values the loop never received. -/
  rest : List α

/-! ## `definedErrorEvents.go` -/

/-- `type InvalidAuth struct{}`. -/
structure InvalidAuth where
deriving DecidableEq, Repr

/-- `func (i *InvalidAuth) ErrorObject() error`. -/
def InvalidAuth.ErrorObject (_i : InvalidAuth) : GoError :=
  errorsNew "Invalid Auth"

/-- `func (i *InvalidAuth) Error() string`. -/
def InvalidAuth.Error (i : InvalidAuth) : String :=
  i.ErrorObject.Error

/-- `func (i *InvalidAuth) IsFatal() bool`. -/
def InvalidAuth.IsFatal (_i : InvalidAuth) : Bool :=
  true

/-- `type Disconnect struct { Intentional bool }`, behind a non-nil pointer. -/
structure Disconnect where
  Intentional : Bool
deriving DecidableEq, Repr

/-- `func (d *Disconnect) ErrorObject() error`. -/
def Disconnect.ErrorObject (d : Disconnect) : GoError :=
  if d.Intentional then
    errorsNew "Intentional Disconnect"
  else
    errorsNew "Unexpected Disconnect"

/-- `func (d *Disconnect) Error() string`. -/
def Disconnect.Error (d : Disconnect) : String :=
  d.ErrorObject.Error

/-- `func (d *Disconnect) IsFatal() bool`. -/
def Disconnect.IsFatal (_d : Disconnect) : Bool :=
  false

/-- A value of the interface `events.ErrorEvent` as `monitorErrors` sees it: one of the two
implementations of `definedErrorEvents.go`, or an implementation defined elsewhere, which
is described by what its two methods return. -/
inductive ErrorEvent where
  | invalidAuth (i : InvalidAuth)
  | disconnect (d : Disconnect)
  | other (fatal : Bool) (msg : String)
deriving DecidableEq, Repr

/-- Dynamic dispatch of `err.IsFatal()`. -/
def ErrorEvent.IsFatal : ErrorEvent → Bool
  | .invalidAuth i => i.IsFatal
  | .disconnect d => d.IsFatal
  | .other fatal _ => fatal

/-- Dynamic dispatch of `err.Error()`. -/
def ErrorEvent.Error : ErrorEvent → String
  | .invalidAuth i => i.Error
  | .disconnect d => d.Error
  | .other _ msg => msg

/-! ## `simpleSlack.go`: the supervision loops -/

/-- The entry written by `log.Println("Chat Adapter Error Event:", err.Error())`. -/
def errorLogEntry (err : ErrorEvent) : LogEntry :=
  .println ["Chat Adapter Error Event:", err.Error]

/-- The loop of `monitorErrors` over the values still to be received.

* empty queue, closed channel: `ok` is false, the function returns;
* empty queue, open channel: the receive never completes;
* a fatal event: `log.Panic(err.Error())`;
* any other event: one `log.Println`, then the next iteration. -/
def monitorErrorsLoop (closed : Bool) : List ErrorEvent → Run ErrorEvent
  | [] => ⟨[], if closed then .returned else .blocked, []⟩
  | err :: rest =>
    if err.IsFatal then
      ⟨[.panic err.Error], .panicked err.Error, rest⟩
    else
      let r := monitorErrorsLoop closed rest
      ⟨errorLogEntry err :: r.log, r.outcome, r.rest⟩

/-- `func monitorErrors(errorChannel <-chan events.ErrorEvent)`. -/
def monitorErrors (errorChannel : Chan ErrorEvent) : Run ErrorEvent :=
  monitorErrorsLoop errorChannel.closed errorChannel.queue

/-- A value of the interface `events.ChatEvent` as the type switch of `monitorEvents` sees
it: its dynamic type is one of the four named in the switch, or any other type (a nil
interface value included).  `shown` is the rendering of the value by the logger. -/
inductive ChatEvent where
  | connectingEvent (shown : String)
  | connectedEvent (shown : String)
  | userEvent (shown : String)
  | channelEvent (shown : String)
  | other (shown : String)
deriving DecidableEq, Repr

/-- The branches of the type switch in `monitorEvents`. -/
inductive Branch where
  | connecting
  | connected
  | user
  | channel
  | default
deriving DecidableEq, Repr

/-- Whether the dynamic type of the event is the type named by a case of the type switch;
the default case takes the events that no named case takes. -/
def Branch.accepts : Branch → ChatEvent → Bool
  | .connecting, .connectingEvent _ => true
  | .connected, .connectedEvent _ => true
  | .user, .userEvent _ => true
  | .channel, .channelEvent _ => true
  | .default, .other _ => true
  | _, _ => false

/-- The branch selected by `switch e := event.(type)`: the cases are tried from the top. -/
def ChatEvent.branch (event : ChatEvent) : Branch :=
  if Branch.connecting.accepts event then .connecting
  else if Branch.connected.accepts event then .connected
  else if Branch.user.accepts event then .user
  else if Branch.channel.accepts event then .channel
  else .default

/-- The rendering of the event value handed to the logger. -/
def ChatEvent.shown : ChatEvent → String
  | .connectingEvent s => s
  | .connectedEvent s => s
  | .userEvent s => s
  | .channelEvent s => s
  | .other s => s

/-- The body of each branch of the type switch. -/
def Branch.logEntry (e : ChatEvent) : Branch → LogEntry
  | .connecting => .println ["Connecting Event fired"]
  | .connected => .println ["Connected Event fired"]
  | .user => .printf "User Event: %+v" e.shown
  | .channel => .printf "Channel Event: %+v" e.shown
  | .default => .println ["Unrecognized Chat Event:", e.shown]

/-- One iteration of the loop of `monitorEvents` on a received event. -/
def chatLogEntry (event : ChatEvent) : LogEntry :=
  event.branch.logEntry event

/-- The loop of `monitorEvents` over the values still to be received. -/
def monitorEventsLoop (closed : Bool) : List ChatEvent → Run ChatEvent
  | [] => ⟨[], if closed then .returned else .blocked, []⟩
  | event :: rest =>
    let r := monitorEventsLoop closed rest
    ⟨chatLogEntry event :: r.log, r.outcome, r.rest⟩

/-- `func monitorEvents(eventsChannel chan events.ChatEvent)`. -/
def monitorEvents (eventsChannel : Chan ChatEvent) : Run ChatEvent :=
  monitorEventsLoop eventsChannel.closed eventsChannel.queue

/-- The message of a log entry written by the `log.Println` of `monitorErrors`. -/
def LogEntry.errorEventMsg : LogEntry → Option String
  | .println ["Chat Adapter Error Event:", msg] => some msg
  | _ => none

/-! ## Text and regular expressions

The pattern handed to `HandlePattern` is a Go interpreted string literal holding a regular
expression.  Both layers are embedded for the fragment that `simpleSlack.go` uses. -/

/-- The character denoted by a single-character escape `\c` of a Go interpreted string
literal (`\a \b \f \n \r \t \v \\ \"`); other escapes are outside the embedded fragment. -/
def goEscape (c : Char) : Option Char :=
  if c = 'a' then some (Char.ofNat 7)
  else if c = 'b' then some (Char.ofNat 8)
  else if c = 'f' then some (Char.ofNat 12)
  else if c = 'n' then some (Char.ofNat 10)
  else if c = 'r' then some (Char.ofNat 13)
  else if c = 't' then some (Char.ofNat 9)
  else if c = 'v' then some (Char.ofNat 11)
  else if c = Char.ofNat 92 then some (Char.ofNat 92)
  else if c = Char.ofNat 34 then some (Char.ofNat 34)
  else none

/-- The string value of a Go interpreted string literal, from the source text between its
quotes. -/
def goInterpret : List Char → Option (List Char)
  | [] => some []
  | [c] => if c = Char.ofNat 92 then none else some [c]
  | c :: d :: rest =>
    if c = Char.ofNat 92 then
      match goEscape d, goInterpret rest with
      | some v, some tl => some (v :: tl)
      | _, _ => none
    else
      match goInterpret (d :: rest) with
      | some tl => some (c :: tl)
      | none => none

/-- The class `\s` of Go regular expressions: tab, newline, form feed, carriage return,
space. -/
def isSpaceChar (c : Char) : Bool :=
  c.toNat = 9 || c.toNat = 10 || c.toNat = 12 || c.toNat = 13 || c.toNat = 32

/-- The ASCII word characters `[0-9A-Za-z_]` that `\b` is defined by. -/
def isWordChar (c : Char) : Bool :=
  (48 ≤ c.toNat && c.toNat ≤ 57) || (65 ≤ c.toNat && c.toNat ≤ 90) ||
    (97 ≤ c.toNat && c.toNat ≤ 122) || c.toNat = 95

/-- The characters with a special meaning in regular-expression syntax. -/
def isMetaChar (c : Char) : Bool :=
  c ∈ [Char.ofNat 92, '.', '+', '*', '?', '(', ')', '|', '[', ']', Char.ofNat 123,
    Char.ofNat 125, '^', '$']

/-- Syntax trees of the fragment of Go regular expressions used by `simpleSlack.go`. -/
inductive Regex where
  /-- The empty expression. -/
  | empty
  /-- A literal character. -/
  | lit (c : Char)
  /-- The class `\s`. -/
  | space
  /-- The assertion `\b`: an ASCII word boundary. -/
  | wordBoundary
  /-- Concatenation. -/
  | cat (a b : Regex)
  /-- Alternation `a|b`. -/
  | alt (a b : Regex)
  /-- Repetition `a+`. -/
  | plus (a : Regex)
  /-- A parenthesised group `(a)`. -/
  | group (a : Regex)
deriving DecidableEq, Repr

/-- A position in the searched text: the character just before it and the text after it. -/
abbrev Cursor := Option Char × List Char

/-- Whether a cursor sits at an ASCII word boundary. -/
def atWordBoundary (cur : Cursor) : Bool :=
  let before := match cur.1 with
    | some c => isWordChar c
    | none => false
  let after := match cur.2 with
    | c :: _ => isWordChar c
    | [] => false
  before != after

/-- One or more rounds of `step`, each of which must consume input; `fuel` bounds the
number of rounds and is at least the length of the remaining input plus one. -/
def plusLoop (step : Cursor → List Cursor) : Nat → Cursor → List Cursor
  | 0, _ => []
  | fuel + 1, cur =>
    let once := step cur
    once ++ (once.filter (fun c => c.2.length < cur.2.length)).flatMap (plusLoop step fuel)

/-- All the cursors at which a match of the expression starting at `cur` can end. -/
def Regex.run : Regex → Cursor → List Cursor
  | .empty, cur => [cur]
  | .lit c, cur =>
    match cur.2 with
    | x :: xs => if x = c then [(some x, xs)] else []
    | [] => []
  | .space, cur =>
    match cur.2 with
    | x :: xs => if isSpaceChar x then [(some x, xs)] else []
    | [] => []
  | .wordBoundary, cur => if atWordBoundary cur then [cur] else []
  | .cat a b, cur => (a.run cur).flatMap (fun mid => b.run mid)
  | .alt a b, cur => a.run cur ++ b.run cur
  | .plus a, cur => plusLoop (fun c => a.run c) (cur.2.length + 1) cur
  | .group a, cur => a.run cur

/-- Whether the expression matches at some position at or after the cursor. -/
def Regex.searchFrom (re : Regex) : Option Char → List Char → Bool
  | before, [] => !(re.run (before, [])).isEmpty
  | before, x :: xs => !(re.run (before, x :: xs)).isEmpty || re.searchFrom (some x) xs

/-- Go's `(*Regexp).MatchString`: whether the text contains a match of the expression. -/
def Regex.MatchString (re : Regex) (text : String) : Bool :=
  re.searchFrom none text.data

/-- The source text of an expression. -/
def Regex.source : Regex → List Char
  | .empty => []
  | .lit c => if isMetaChar c then [Char.ofNat 92, c] else [c]
  | .space => [Char.ofNat 92, 's']
  | .wordBoundary => [Char.ofNat 92, 'b']
  | .cat a b => a.source ++ b.source
  | .alt a b => a.source ++ '|' :: b.source
  | .plus a => a.source ++ ['+']
  | .group a => '(' :: a.source ++ [')']

/-- Concatenation that drops an empty right operand, as the parser builds it. -/
def Regex.seq (a b : Regex) : Regex :=
  if b = .empty then a else .cat a b

/-- Wraps the expression in `plus` once for every leading `+` of the input. -/
def parsePlus (a : Regex) : List Char → Regex × List Char
  | [] => (a, [])
  | c :: rest => if c = '+' then parsePlus (.plus a) rest else (a, c :: rest)

mutual
/-- Parses an alternation `cat|cat|...`. -/
def parseAlt : Nat → List Char → Option (Regex × List Char)
  | 0, _ => none
  | fuel + 1, s =>
    match parseCat fuel s with
    | none => none
    | some (a, rest) =>
      match rest with
      | c :: rest2 =>
        if c = '|' then
          match parseAlt fuel rest2 with
          | some (b, rest3) => some (.alt a b, rest3)
          | none => none
        else some (a, rest)
      | [] => some (a, rest)
/-- Parses a concatenation of repeated atoms, up to `|`, `)` or the end. -/
def parseCat : Nat → List Char → Option (Regex × List Char)
  | 0, _ => none
  | fuel + 1, s =>
    match s with
    | [] => some (.empty, [])
    | c :: _ =>
      if c = '|' || c = ')' then some (.empty, s)
      else
        match parseAtom fuel s with
        | none => none
        | some (a, rest) =>
          let (a2, rest2) := parsePlus a rest
          match parseCat fuel rest2 with
          | some (b, rest3) => some (a2.seq b, rest3)
          | none => none
/-- Parses a literal, an escape or a group. -/
def parseAtom : Nat → List Char → Option (Regex × List Char)
  | 0, _ => none
  | fuel + 1, s =>
    match s with
    | [] => none
    | c :: rest =>
      if c = '(' then
        match parseAlt fuel rest with
        | some (a, d :: rest2) => if d = ')' then some (.group a, rest2) else none
        | _ => none
      else if c = Char.ofNat 92 then
        match rest with
        | d :: rest2 =>
          if d = 'b' then some (.wordBoundary, rest2)
          else if d = 's' then some (.space, rest2)
          else if isMetaChar d then some (.lit d, rest2)
          else none
        | [] => none
      else if isMetaChar c then none
      else some (.lit c, rest)
end

/-- Go's `regexp.Compile` on the embedded fragment: `none` when the pattern is malformed
or uses syntax outside the fragment. -/
def regexpCompile (pattern : String) : Option Regex :=
  match parseAlt (3 * pattern.data.length + 3) pattern.data with
  | some (re, []) => some re
  | _ => none

/-! ## The dispatch core

`dispatch.go`, which implements the registry and the matcher behind the `victor.Robot`
interface, is described by sections 3 and 4.1 to 4.3 of the specification. -/

/-- Modelled from the spec: the Message of section 3 (raw text, originating user with id
and display name, originating channel id, timestamp), whose type lives in the chat
package. -/
structure Message where
  text : String
  userID : String
  userName : String
  channelID : String
  timestamp : Nat
deriving DecidableEq, Repr

/-- Modelled from the spec: the DispatchContext of section 3 (`victor.State`): the matched
message and the fields extracted from the command body.  The outbound send capability is
embedded as the list of sends a handler returns. -/
structure State where
  message : Message
  fields : List String
deriving DecidableEq, Repr

/-- One call `s.Chat().Send(channelID, msg)`. -/
structure Sent where
  channelID : String
  msg : String
deriving DecidableEq, Repr

/-- Modelled from the spec: the CommandDescriptor of section 3, with the field names that
`addHandlers` uses for `victor.HandlerDoc`: name, description, usage templates, visibility
flag and bound handler. -/
structure HandlerDoc (H : Type) where
  CmdHandler : H
  CmdName : String
  CmdDescription : String
  CmdUsage : List String
  CmdIsHidden : Bool := false

/-- Modelled from the spec: the PatternDescriptor of section 3, a regular expression plus
a bound handler. -/
structure PatternDescriptor (H : Type) where
  regex : Regex
  handler : H

/-- Modelled from the spec: the Handler Registry of section 4.1, which stands for the
registry kept by `dispatch.go` of the `victor` package: the command handlers and the
pattern handlers, both in registration order, and at most one default handler. -/
structure Registry (H : Type) where
  commands : List (HandlerDoc H)
  patterns : List (PatternDescriptor H)
  defaultHandler : Option H

/-- Modelled from the spec: the registration-time failures of sections 4.1 and 7.
`InvalidPattern` is the failure of `HandlePattern` on a pattern that does not compile in
the embedded fragment. -/
inductive RegistryError where
  | DuplicateCommand (name : String)
  | InvalidPattern (pattern : String)
deriving DecidableEq, Repr

/-- Modelled from the spec: the registry before any registration. -/
def Registry.new (H : Type) : Registry H :=
  ⟨[], [], none⟩

/-- The form of a command name under which names are compared: case-insensitively. -/
def foldName (name : String) : List Char :=
  name.data.map Char.toLower

/-- Modelled from the spec: `lookupCommand(name)` of section 4.1, case-insensitive and
exact. -/
def lookupCommand {H : Type} (r : Registry H) (name : String) : Option (HandlerDoc H) :=
  r.commands.find? (fun d => foldName d.CmdName = foldName name)

/-- Modelled from the spec: `registerCommand(descriptor)` of section 4.1, which fails with
`DuplicateCommand` if a command with the same case-insensitive name already exists. -/
def registerCommand {H : Type} (r : Registry H) (d : HandlerDoc H) :
    Except RegistryError (Registry H) :=
  match lookupCommand r d.CmdName with
  | some _ => .error (.DuplicateCommand d.CmdName)
  | none => .ok { r with commands := r.commands ++ [d] }

/-- Modelled from the spec: `registerPattern(descriptor)` of section 4.1, which appends to
an ordered sequence. -/
def registerPattern {H : Type} (r : Registry H) (d : PatternDescriptor H) : Registry H :=
  { r with patterns := r.patterns ++ [d] }

/-- Modelled from the spec: `setDefaultHandler(handler)` of section 4.1; the last
registration wins. -/
def setDefaultHandler {H : Type} (r : Registry H) (h : H) : Registry H :=
  { r with defaultHandler := some h }

/-- Modelled from the spec: `listCommands()` of section 4.1, ordered by registration
time. -/
def listCommands {H : Type} (r : Registry H) : List (HandlerDoc H) :=
  r.commands

/-- Modelled from the spec: the leading token of section 4.2, the first run of characters
that are not white space; an empty or blank text has none. -/
def leadingToken (text : String) : Option String :=
  match (text.data.dropWhile isSpaceChar).takeWhile (fun c => !isSpaceChar c) with
  | [] => none
  | tok => some (String.mk tok)

/-- The text after the leading token. -/
def commandBody (text : String) : List Char :=
  (text.data.dropWhile isSpaceChar).dropWhile (fun c => !isSpaceChar c)

/-- The field being read, appended to the fields read so far unless it is empty. -/
def flushField (done : List String) (cur : List Char) : List String :=
  if cur.isEmpty then done else done ++ [String.mk cur]

/-- Modelled from the spec: the fields of section 4.2: the command body is split on white
space, and a stretch delimited by backticks is one field. -/
def splitFields : List Char → List String → List Char → Bool → List String
  | [], done, cur, _ => flushField done cur
  | c :: rest, done, cur, true =>
    if c = Char.ofNat 96 then splitFields rest (done ++ [String.mk cur]) [] false
    else splitFields rest done (cur ++ [c]) true
  | c :: rest, done, cur, false =>
    if c = Char.ofNat 96 then splitFields rest (flushField done cur) [] true
    else if isSpaceChar c then splitFields rest (flushField done cur) [] false
    else splitFields rest done (cur ++ [c]) false

/-- The fields of a command message. -/
def commandFields (text : String) : List String :=
  splitFields (commandBody text) [] [] false

/-- Which step of the matcher produced a plan. -/
inductive PlanKind where
  | command
  | pattern
  | default
deriving DecidableEq, Repr

/-- Modelled from the spec: the dispatch plan of section 4.2: the selected handler and the
fields it receives.  Capture groups of a pattern match are not embedded: the plan of a
pattern match carries no fields. -/
structure Plan (H : Type) where
  kind : PlanKind
  handler : H
  fields : List String

/-- The outcome of the matcher: the plan, or `none` for `NoHandlerMatched`, and the
patterns that were tested against the text, in the order they were tested. -/
structure Matched (H : Type) where
  plan : Option (Plan H)
  tried : List (PatternDescriptor H)

/-- Modelled from the spec: step 3 of section 4.2: the text is tested against each
registered pattern in registration order, and the first match is selected. -/
def matchPatterns {H : Type} (text : String) :
    List (PatternDescriptor H) → Option H × List (PatternDescriptor H)
  | [] => (none, [])
  | p :: ps =>
    if p.regex.MatchString text then (some p.handler, [p])
    else
      let r := matchPatterns text ps
      (r.1, p :: r.2)

/-- Modelled from the spec: steps 3 and 4 of section 4.2, for a message that is not a
command. -/
def matchNonCommand {H : Type} (r : Registry H) (text : String) : Matched H :=
  match matchPatterns text r.patterns with
  | (some h, tried) => ⟨some ⟨.pattern, h, []⟩, tried⟩
  | (none, tried) =>
    match r.defaultHandler with
    | some h => ⟨some ⟨.default, h, []⟩, tried⟩
    | none => ⟨none, tried⟩

/-- Modelled from the spec: the Message Matcher of section 4.2, which stands for the
matching done by `dispatch.go` of the `victor` package: a command named by the leading
token first, then the patterns, then the default handler. -/
def matchMessage {H : Type} (r : Registry H) (text : String) : Matched H :=
  match leadingToken text with
  | none => matchNonCommand r text
  | some tok =>
    match lookupCommand r tok with
    | some d => ⟨some ⟨.command, d.CmdHandler, commandFields text⟩, []⟩
    | none => matchNonCommand r text

/-- What one call of `dispatch` did: the patterns it tested and the handlers it invoked,
each with the context it was handed. -/
structure Dispatched (H : Type) where
  tried : List (PatternDescriptor H)
  invoked : List (H × State)

/-- Modelled from the spec: `dispatch(message)` of section 4.3, which stands for the
message processing of `dispatch.go` of the `victor` package: builds a context from the
matcher's plan and invokes the bound handler. -/
def dispatch {H : Type} (r : Registry H) (m : Message) : Dispatched H :=
  let found := matchMessage r m.text
  match found.plan with
  | some plan => ⟨found.tried, [(plan.handler, ⟨m, plan.fields⟩)]⟩
  | none => ⟨found.tried, []⟩

/-! ## `simpleSlack.go`: the handlers and their registration -/

/-- The handler functions of `simpleSlack.go`. -/
inductive HandlerFunc where
  | byeFunc
  | echoFunc
  | thanksFunc
  | fieldsFunc
  | defaultFunc
deriving DecidableEq, Repr

/-- `func byeFunc(s victor.State)`. -/
def byeFunc (s : State) : List Sent :=
  let msg := "Bye " ++ s.message.userName ++ "!"
  [⟨s.message.channelID, msg⟩]

/-- `func echoFunc(s victor.State)`. -/
def echoFunc (s : State) : List Sent :=
  [⟨s.message.channelID, s.message.text⟩]

/-- `func thanksFunc(s victor.State)`. -/
def thanksFunc (s : State) : List Sent :=
  let msg := "You're welcome " ++ s.message.userName ++ "!"
  [⟨s.message.channelID, msg⟩]

/-- `func fieldsFunc(s victor.State)`. -/
def fieldsFunc (s : State) : List Sent :=
  let fStr := s.fields.foldl (fun acc f => acc ++ (f ++ "\n")) ""
  [⟨s.message.channelID, fStr⟩]

/-- `func defaultFunc(s victor.State)`. -/
def defaultFunc (s : State) : List Sent :=
  [⟨s.message.channelID, r"Unrecognized command. Type `help` to see supported commands."⟩]

/-- The body of a handler function. -/
def HandlerFunc.call : HandlerFunc → State → List Sent
  | .byeFunc => Victor.byeFunc
  | .echoFunc => Victor.echoFunc
  | .thanksFunc => Victor.thanksFunc
  | .fieldsFunc => Victor.fieldsFunc
  | .defaultFunc => Victor.defaultFunc

/-- Modelled from the spec: the method `HandleCommand` of `victor.Robot`, as the
`registerCommand` of section 4.1. -/
def HandleCommand (r : Registry HandlerFunc) (d : HandlerDoc HandlerFunc) :
    Except RegistryError (Registry HandlerFunc) :=
  registerCommand r d

/-- Modelled from the spec: the method `HandlePattern` of `victor.Robot`, as the
`registerPattern` of section 4.1 applied to the compiled pattern. -/
def HandlePattern (r : Registry HandlerFunc) (pattern : String) (fn : HandlerFunc) :
    Except RegistryError (Registry HandlerFunc) :=
  match regexpCompile pattern with
  | some re => .ok (registerPattern r ⟨re, fn⟩)
  | none => .error (.InvalidPattern pattern)

/-- Modelled from the spec: the method `SetDefaultHandler` of `victor.Robot`, as the
`setDefaultHandler` of section 4.1. -/
def SetDefaultHandler (r : Registry HandlerFunc) (fn : HandlerFunc) : Registry HandlerFunc :=
  setDefaultHandler r fn

/-- The source text, between the quotes, of the string literal that `addHandlers` passes
to `HandlePattern`. -/
def thanksPatternLiteral : String :=
  r"\b(thanks|thank\\s+you)\b"

/-- The string value of that literal: in an interpreted string literal `\b` is the
backspace character U+0008 and `\\` is one backslash. -/
def thanksPattern : String :=
  "\x08(thanks|thank\\s+you)\x08"

/-- The word-boundary pattern, whose text is `\b(thanks|thank\s+you)\b`. -/
def wordBoundaryPattern : String :=
  r"\b(thanks|thank\s+you)\b"

/-- `func addHandlers(r victor.Robot)`. -/
def addHandlers (r : Registry HandlerFunc) : Except RegistryError (Registry HandlerFunc) := do
  let r ← HandleCommand r {
    CmdHandler := .byeFunc
    CmdName := "hi"
    CmdDescription := "Says goodbye when the user says hi!"
    CmdUsage := [""] }
  let r ← HandleCommand r {
    CmdHandler := .echoFunc
    CmdName := "echo"
    CmdDescription := r"Hidden `echo` command!"
    CmdUsage := ["", r"`text to echo`"]
    CmdIsHidden := true }
  let r ← HandleCommand r {
    CmdHandler := .fieldsFunc
    CmdName := "fields"
    CmdDescription := "Show the fields/parameters of a command message!"
    CmdUsage := [r"`param0` `param1` `...`"] }
  let r ← HandlePattern r thanksPattern .thanksFunc
  pure (SetDefaultHandler r .defaultFunc)

/-- The messages sent while one message is dispatched: the sends of the invoked handler. -/
def replies (r : Registry HandlerFunc) (m : Message) : List Sent :=
  (dispatch r m).invoked.flatMap (fun invocation => invocation.1.call invocation.2)

/-- A registry with the command `hi`, a pattern for the letters `hi` and a default
handler. -/
def sampleRegistry : Registry HandlerFunc :=
  { commands := [{
      CmdHandler := .byeFunc
      CmdName := "hi"
      CmdDescription := "Says goodbye when the user says hi!"
      CmdUsage := [""] }]
    patterns := [⟨.cat (.lit 'h') (.lit 'i'), .thanksFunc⟩]
    defaultHandler := some .defaultFunc }

/-- A message that names the command `hi` in upper case and holds the letters `hi`. -/
def sampleMessage : Message :=
  { text := "HI to this channel", userID := "U1", userName := "Ann", channelID := "C1",
    timestamp := 0 }

end Victor

namespace Victor

/-! ## Lemmas on the supervision loops -/

/-- Non-fatal events at the head of the stream are logged one by one and the loop goes on
with what follows them. -/
theorem monitorErrorsLoop_append (closed : Bool) (pre rest : List ErrorEvent)
    (h : ∀ x ∈ pre, x.IsFatal = false) :
    monitorErrorsLoop closed (pre ++ rest) =
      ⟨pre.map errorLogEntry ++ (monitorErrorsLoop closed rest).log,
        (monitorErrorsLoop closed rest).outcome, (monitorErrorsLoop closed rest).rest⟩ := by
  induction pre with
  | nil => simp
  | cons x xs ih =>
    have hx : x.IsFatal = false := h x (List.mem_cons_self x xs)
    have hxs : ∀ y ∈ xs, y.IsFatal = false := fun y hy => h y (List.mem_cons_of_mem x hy)
    simp [monitorErrorsLoop, hx, ih hxs]

/-- The loop on a fatal event. -/
theorem monitorErrorsLoop_fatal (closed : Bool) (e : ErrorEvent) (post : List ErrorEvent)
    (h : e.IsFatal = true) :
    monitorErrorsLoop closed (e :: post) = ⟨[.panic e.Error], .panicked e.Error, post⟩ := by
  simp [monitorErrorsLoop, h]

/-- The loop on a stream without fatal events. -/
theorem monitorErrorsLoop_all_nonfatal (closed : Bool) (l : List ErrorEvent)
    (h : ∀ x ∈ l, x.IsFatal = false) :
    monitorErrorsLoop closed l =
      ⟨l.map errorLogEntry, if closed then .returned else .blocked, []⟩ := by
  have := monitorErrorsLoop_append closed l [] h
  simpa [monitorErrorsLoop] using this

/-- A stream with a fatal event splits at its first fatal event. -/
theorem split_first_fatal (l : List ErrorEvent) (h : ∃ e ∈ l, e.IsFatal = true) :
    ∃ pre e post, l = pre ++ e :: post ∧ (∀ x ∈ pre, x.IsFatal = false) ∧
      e.IsFatal = true := by
  induction l with
  | nil => simp at h
  | cons x xs ih =>
    by_cases hx : x.IsFatal = true
    · exact ⟨[], x, xs, rfl, by simp, hx⟩
    · have hx2 : x.IsFatal = false := by simpa using hx
      have h2 : ∃ e ∈ xs, e.IsFatal = true := by
        obtain ⟨e, he, hf⟩ := h
        rcases List.mem_cons.mp he with rfl | he2
        · exact absurd hf hx
        · exact ⟨e, he2, hf⟩
      obtain ⟨pre, e, post, hl, hpre, he⟩ := ih h2
      refine ⟨x :: pre, e, post, by simp [hl], ?_, he⟩
      intro y hy
      rcases List.mem_cons.mp hy with rfl | hy2
      · exact hx2
      · exact hpre y hy2

/-- The loop of `monitorEvents` logs every event and receives all of them. -/
theorem monitorEventsLoop_eq (closed : Bool) (l : List ChatEvent) :
    monitorEventsLoop closed l =
      ⟨l.map chatLogEntry, if closed then .returned else .blocked, []⟩ := by
  induction l with
  | nil => simp [monitorEventsLoop]
  | cons x xs ih => simp [monitorEventsLoop, ih]

/-- The log of `monitorErrors`, read back as error-event messages. -/
theorem monitorErrorsLoop_messages (closed : Bool) (l : List ErrorEvent) :
    (monitorErrorsLoop closed l).log.filterMap LogEntry.errorEventMsg =
      (l.takeWhile (fun e => !e.IsFatal)).map ErrorEvent.Error := by
  induction l with
  | nil => simp [monitorErrorsLoop]
  | cons x xs ih =>
    by_cases hx : x.IsFatal = true
    · simp [monitorErrorsLoop, hx, LogEntry.errorEventMsg]
    · have hx2 : x.IsFatal = false := by simpa using hx
      simp [monitorErrorsLoop, hx2, errorLogEntry, LogEntry.errorEventMsg, ih]

/-! ## The supervision loops: claims -/

/-- C1: on every error-event stream that holds a fatal event, `monitorErrors` panics with
the `Error()` message of the first fatal event; the events emitted after it are never
received, and the log holds one entry for each event before it followed by the entry of
`log.Panic`, so nothing emitted after it is logged. -/
theorem monitorErrors_halts_at_first_fatal (errorChannel : Chan ErrorEvent)
    (h : ∃ e ∈ errorChannel.queue, e.IsFatal = true) :
    ∃ pre e post, errorChannel.queue = pre ++ e :: post ∧
      (∀ x ∈ pre, x.IsFatal = false) ∧ e.IsFatal = true ∧
      (monitorErrors errorChannel).outcome = .panicked e.Error ∧
      (monitorErrors errorChannel).rest = post ∧
      (monitorErrors errorChannel).log = pre.map errorLogEntry ++ [.panic e.Error] := by
  obtain ⟨pre, e, post, hq, hpre, he⟩ := split_first_fatal errorChannel.queue h
  refine ⟨pre, e, post, hq, hpre, he, ?_, ?_, ?_⟩ <;>
    simp [monitorErrors, hq, monitorErrorsLoop_append _ pre (e :: post) hpre,
      monitorErrorsLoop_fatal _ e post he]

/-- Witness of C1: a stream with an unexpected disconnect, then invalid credentials, then
one more disconnect. -/
theorem monitorErrors_halts_at_first_fatal_witness :
    ∃ pre e post,
      [ErrorEvent.disconnect ⟨false⟩, .invalidAuth ⟨⟩, .disconnect ⟨true⟩] = pre ++ e :: post ∧
      (∀ x ∈ pre, x.IsFatal = false) ∧ e.IsFatal = true ∧
      (monitorErrors ⟨[.disconnect ⟨false⟩, .invalidAuth ⟨⟩, .disconnect ⟨true⟩], true⟩).outcome =
        .panicked e.Error ∧
      (monitorErrors ⟨[.disconnect ⟨false⟩, .invalidAuth ⟨⟩, .disconnect ⟨true⟩], true⟩).rest =
        post ∧
      (monitorErrors ⟨[.disconnect ⟨false⟩, .invalidAuth ⟨⟩, .disconnect ⟨true⟩], true⟩).log =
        pre.map errorLogEntry ++ [.panic e.Error] :=
  monitorErrors_halts_at_first_fatal
    ⟨[.disconnect ⟨false⟩, .invalidAuth ⟨⟩, .disconnect ⟨true⟩], true⟩
    ⟨.invalidAuth ⟨⟩, by decide, rfl⟩

/-- C2: `monitorErrors` panics if and only if the stream holds a fatal event; on a stream
whose events are all non-fatal it writes one `Chat Adapter Error Event:` entry per event,
receives every event, and ends only by returning on closure (or waits on the open
channel). -/
theorem monitorErrors_panics_iff_fatal (errorChannel : Chan ErrorEvent) :
    ((∃ msg, (monitorErrors errorChannel).outcome = .panicked msg) ↔
        ∃ e ∈ errorChannel.queue, e.IsFatal = true) ∧
      ((∀ e ∈ errorChannel.queue, e.IsFatal = false) →
        (monitorErrors errorChannel).log = errorChannel.queue.map errorLogEntry ∧
        (monitorErrors errorChannel).rest = [] ∧
        (monitorErrors errorChannel).outcome =
          if errorChannel.closed then .returned else .blocked) := by
  have hall : (∀ e ∈ errorChannel.queue, e.IsFatal = false) →
      monitorErrors errorChannel = ⟨errorChannel.queue.map errorLogEntry,
        if errorChannel.closed then .returned else .blocked, []⟩ := fun h =>
    monitorErrorsLoop_all_nonfatal errorChannel.closed errorChannel.queue h
  refine ⟨⟨?_, ?_⟩, ?_⟩
  · rintro ⟨msg, hmsg⟩
    by_contra hno
    have hnf : ∀ e ∈ errorChannel.queue, e.IsFatal = false := by
      intro e he
      by_contra hf
      exact hno ⟨e, he, by simpa using hf⟩
    rw [hall hnf] at hmsg
    cases hc : errorChannel.closed <;> simp [hc] at hmsg
  · intro h
    obtain ⟨pre, e, post, hq, hpre, he⟩ := split_first_fatal errorChannel.queue h
    refine ⟨e.Error, ?_⟩
    simp [monitorErrors, hq, monitorErrorsLoop_append _ pre (e :: post) hpre,
      monitorErrorsLoop_fatal _ e post he]
  · intro h
    rw [hall h]
    exact ⟨rfl, rfl, rfl⟩

/-- Witness of C2: two disconnects on a channel that stays open. -/
theorem monitorErrors_panics_iff_fatal_witness :
    (monitorErrors ⟨[.disconnect ⟨false⟩, .disconnect ⟨true⟩], false⟩).log =
        [.println ["Chat Adapter Error Event:", "Unexpected Disconnect"],
          .println ["Chat Adapter Error Event:", "Intentional Disconnect"]] ∧
      (monitorErrors ⟨[.disconnect ⟨false⟩, .disconnect ⟨true⟩], false⟩).rest = [] ∧
      (monitorErrors ⟨[.disconnect ⟨false⟩, .disconnect ⟨true⟩], false⟩).outcome = .blocked :=
  (monitorErrors_panics_iff_fatal ⟨[.disconnect ⟨false⟩, .disconnect ⟨true⟩], false⟩).2
    (by decide)

/-- C3: for every `InvalidAuth` value `IsFatal()` is true and `Error()` is
`"Invalid Auth"`, and when `monitorErrors` receives one (the events before it being
non-fatal) it panics with that message and receives nothing after it. -/
theorem invalidAuth_is_fatal (i : InvalidAuth) (pre post : List ErrorEvent) (closed : Bool)
    (h : ∀ x ∈ pre, x.IsFatal = false) :
    i.IsFatal = true ∧ i.Error = "Invalid Auth" ∧
      (monitorErrors ⟨pre ++ .invalidAuth i :: post, closed⟩).outcome =
        .panicked "Invalid Auth" ∧
      (monitorErrors ⟨pre ++ .invalidAuth i :: post, closed⟩).rest = post ∧
      (monitorErrors ⟨pre ++ .invalidAuth i :: post, closed⟩).log =
        pre.map errorLogEntry ++ [.panic "Invalid Auth"] := by
  have he : (ErrorEvent.invalidAuth i).IsFatal = true := rfl
  have hm : (ErrorEvent.invalidAuth i).Error = "Invalid Auth" := rfl
  refine ⟨rfl, rfl, ?_, ?_, ?_⟩ <;>
    simp [monitorErrors, monitorErrorsLoop_append _ pre (.invalidAuth i :: post) h,
      monitorErrorsLoop_fatal _ (.invalidAuth i) post he, hm]

/-- Witness of C3: invalid credentials after one unexpected disconnect. -/
theorem invalidAuth_is_fatal_witness :
    (⟨⟩ : InvalidAuth).IsFatal = true ∧ (⟨⟩ : InvalidAuth).Error = "Invalid Auth" ∧
      (monitorErrors ⟨[.disconnect ⟨false⟩] ++ .invalidAuth ⟨⟩ :: [.disconnect ⟨true⟩],
        false⟩).outcome = .panicked "Invalid Auth" ∧
      (monitorErrors ⟨[.disconnect ⟨false⟩] ++ .invalidAuth ⟨⟩ :: [.disconnect ⟨true⟩],
        false⟩).rest = [.disconnect ⟨true⟩] ∧
      (monitorErrors ⟨[.disconnect ⟨false⟩] ++ .invalidAuth ⟨⟩ :: [.disconnect ⟨true⟩],
        false⟩).log = [ErrorEvent.disconnect ⟨false⟩].map errorLogEntry ++
          [.panic "Invalid Auth"] :=
  invalidAuth_is_fatal ⟨⟩ [.disconnect ⟨false⟩] [.disconnect ⟨true⟩] false (by decide)

/-- C4: for every `Disconnect` value, intentional or not, `IsFatal()` is false; when
`monitorErrors` receives one it writes its log entry and carries on with the rest of the
stream exactly as if the stream had started there, and a stream made of disconnects alone
never makes it panic. -/
theorem disconnect_is_not_fatal (d : Disconnect) (pre post : List ErrorEvent)
    (closed : Bool) (h : ∀ x ∈ pre, x.IsFatal = false) :
    d.IsFatal = false ∧
      (monitorErrors ⟨pre ++ .disconnect d :: post, closed⟩).log =
        pre.map errorLogEntry ++
          LogEntry.println ["Chat Adapter Error Event:", d.Error] ::
            (monitorErrors ⟨post, closed⟩).log ∧
      (monitorErrors ⟨pre ++ .disconnect d :: post, closed⟩).outcome =
        (monitorErrors ⟨post, closed⟩).outcome ∧
      (monitorErrors ⟨pre ++ .disconnect d :: post, closed⟩).rest =
        (monitorErrors ⟨post, closed⟩).rest ∧
      ∀ ds : List Disconnect, ∀ msg,
        (monitorErrors ⟨ds.map .disconnect, closed⟩).outcome ≠ .panicked msg := by
  have hd : (ErrorEvent.disconnect d).IsFatal = false := rfl
  have hstep : monitorErrorsLoop closed (.disconnect d :: post) =
      ⟨errorLogEntry (.disconnect d) :: (monitorErrorsLoop closed post).log,
        (monitorErrorsLoop closed post).outcome, (monitorErrorsLoop closed post).rest⟩ := by
    simp [monitorErrorsLoop, hd]
  refine ⟨rfl, ?_, ?_, ?_, ?_⟩
  · simp [monitorErrors, monitorErrorsLoop_append _ pre (.disconnect d :: post) h, hstep,
      errorLogEntry, ErrorEvent.Error]
  · simp [monitorErrors, monitorErrorsLoop_append _ pre (.disconnect d :: post) h, hstep]
  · simp [monitorErrors, monitorErrorsLoop_append _ pre (.disconnect d :: post) h, hstep]
  · intro ds msg
    have hds : ∀ x ∈ ds.map ErrorEvent.disconnect, x.IsFatal = false := by
      intro x hx
      obtain ⟨d2, _, rfl⟩ := List.mem_map.mp hx
      rfl
    rw [monitorErrors, monitorErrorsLoop_all_nonfatal _ _ hds]
    cases closed <;> simp

/-- Witness of C4: an intentional disconnect between an unexpected one and the closure of
the channel. -/
theorem disconnect_is_not_fatal_witness :
    (⟨true⟩ : Disconnect).IsFatal = false ∧
      (monitorErrors ⟨[.disconnect ⟨false⟩] ++ .disconnect ⟨true⟩ :: [], true⟩).log =
        [ErrorEvent.disconnect ⟨false⟩].map errorLogEntry ++
          LogEntry.println ["Chat Adapter Error Event:", (⟨true⟩ : Disconnect).Error] ::
            (monitorErrors ⟨[], true⟩).log ∧
      (monitorErrors ⟨[.disconnect ⟨false⟩] ++ .disconnect ⟨true⟩ :: [], true⟩).outcome =
        (monitorErrors ⟨[], true⟩).outcome ∧
      (monitorErrors ⟨[.disconnect ⟨false⟩] ++ .disconnect ⟨true⟩ :: [], true⟩).rest =
        (monitorErrors ⟨[], true⟩).rest ∧
      ∀ ds : List Disconnect, ∀ msg,
        (monitorErrors ⟨ds.map .disconnect, true⟩).outcome ≠ .panicked msg :=
  disconnect_is_not_fatal ⟨true⟩ [.disconnect ⟨false⟩] [] true (by decide)

/-- C5: when a stream is closed its loop returns: `monitorEvents` returns after receiving
and logging every chat event of a closed stream, and `monitorErrors` returns, without
panicking, after receiving and logging every event of a closed stream of non-fatal error
events. -/
theorem loops_return_on_close (events : List ChatEvent) (errors : List ErrorEvent)
    (h : ∀ e ∈ errors, e.IsFatal = false) :
    (monitorEvents ⟨events, true⟩).outcome = .returned ∧
      (monitorEvents ⟨events, true⟩).rest = [] ∧
      (monitorEvents ⟨events, true⟩).log.length = events.length ∧
      (monitorErrors ⟨errors, true⟩).outcome = .returned ∧
      (monitorErrors ⟨errors, true⟩).rest = [] ∧
      (monitorErrors ⟨errors, true⟩).log.length = errors.length := by
  simp [monitorEvents, monitorErrors, monitorEventsLoop_eq,
    monitorErrorsLoop_all_nonfatal true errors h]

/-- Witness of C5: a connection coming up, and two disconnects. -/
theorem loops_return_on_close_witness :
    (monitorEvents ⟨[.connectingEvent "", .connectedEvent ""], true⟩).outcome = .returned ∧
      (monitorEvents ⟨[.connectingEvent "", .connectedEvent ""], true⟩).rest = [] ∧
      (monitorEvents ⟨[.connectingEvent "", .connectedEvent ""], true⟩).log.length =
        [ChatEvent.connectingEvent "", .connectedEvent ""].length ∧
      (monitorErrors ⟨[.disconnect ⟨false⟩, .disconnect ⟨true⟩], true⟩).outcome = .returned ∧
      (monitorErrors ⟨[.disconnect ⟨false⟩, .disconnect ⟨true⟩], true⟩).rest = [] ∧
      (monitorErrors ⟨[.disconnect ⟨false⟩, .disconnect ⟨true⟩], true⟩).log.length =
        [ErrorEvent.disconnect ⟨false⟩, .disconnect ⟨true⟩].length :=
  loops_return_on_close [.connectingEvent "", .connectedEvent ""]
    [.disconnect ⟨false⟩, .disconnect ⟨true⟩] (by decide)

/-- C6: the type switch of `monitorEvents` takes every chat event to exactly one branch:
the four named variants to their own branches, any other variant to the default branch
that logs `Unrecognized Chat Event:`; the loop writes exactly the entry of that branch for
each event, in order, receives every event of the stream, and never panics. -/
theorem monitorEvents_dispatches_by_variant (eventsChannel : Chan ChatEvent) :
    (∀ event : ChatEvent, ∀ b : Branch, b.accepts event = true ↔ b = event.branch) ∧
      (∀ s, chatLogEntry (.connectingEvent s) = .println ["Connecting Event fired"]) ∧
      (∀ s, chatLogEntry (.connectedEvent s) = .println ["Connected Event fired"]) ∧
      (∀ s, chatLogEntry (.userEvent s) = .printf "User Event: %+v" s) ∧
      (∀ s, chatLogEntry (.channelEvent s) = .printf "Channel Event: %+v" s) ∧
      (∀ s, chatLogEntry (.other s) = .println ["Unrecognized Chat Event:", s]) ∧
      (monitorEvents eventsChannel).log = eventsChannel.queue.map chatLogEntry ∧
      (monitorEvents eventsChannel).rest = [] ∧
      (monitorEvents eventsChannel).outcome =
        (if eventsChannel.closed then .returned else .blocked) ∧
      ∀ msg, (monitorEvents eventsChannel).outcome ≠ .panicked msg := by
  refine ⟨?_, fun _ => rfl, fun _ => rfl, fun _ => rfl, fun _ => rfl, fun _ => rfl, ?_, ?_,
    ?_, ?_⟩
  · intro event b
    cases event <;> cases b <;> simp [Branch.accepts, ChatEvent.branch]
  · simp [monitorEvents, monitorEventsLoop_eq]
  · simp [monitorEvents, monitorEventsLoop_eq]
  · simp [monitorEvents, monitorEventsLoop_eq]
  · intro msg
    rw [monitorEvents, monitorEventsLoop_eq]
    cases eventsChannel.closed <;> simp

/-- C7: events of one stream are classified in emission order: the
`Chat Adapter Error Event:` entries in the log of `monitorErrors` are the `Error()`
messages of the events before the first fatal event (of all events when none is fatal),
one per event and in emission order, and the log of `monitorEvents` is the entry of each
chat event, one per event and in emission order. -/
theorem classified_in_emission_order (errorChannel : Chan ErrorEvent)
    (eventsChannel : Chan ChatEvent) :
    (monitorErrors errorChannel).log.filterMap LogEntry.errorEventMsg =
        (errorChannel.queue.takeWhile (fun e => !e.IsFatal)).map ErrorEvent.Error ∧
      (monitorEvents eventsChannel).log = eventsChannel.queue.map chatLogEntry := by
  refine ⟨monitorErrorsLoop_messages _ _, ?_⟩
  simp [monitorEvents, monitorEventsLoop_eq]

/-- C10: for every `Disconnect` value `Error()` is the `Error()` of its `ErrorObject()`,
namely `"Intentional Disconnect"` when `Intentional` is true and `"Unexpected Disconnect"`
otherwise; these two messages and the `"Invalid Auth"` of `InvalidAuth` are pairwise
distinct. -/
theorem disconnect_error_messages (d : Disconnect) (i : InvalidAuth) :
    d.Error = d.ErrorObject.Error ∧
      d.Error = (if d.Intentional then "Intentional Disconnect" else "Unexpected Disconnect") ∧
      i.Error = "Invalid Auth" ∧
      (⟨true⟩ : Disconnect).Error ≠ (⟨false⟩ : Disconnect).Error ∧
      (⟨true⟩ : Disconnect).Error ≠ i.Error ∧
      (⟨false⟩ : Disconnect).Error ≠ i.Error := by
  cases i
  refine ⟨rfl, ?_, rfl, by decide, by decide, by decide⟩
  cases d with
  | mk b => cases b <;> rfl

end Victor

namespace Victor

/-! ## Lemmas on the dispatch core -/

/-- A successful lookup returns a registered command whose name is the looked-up name up
to case. -/
theorem lookupCommand_some {H : Type} (r : Registry H) (name : String) (d : HandlerDoc H)
    (h : lookupCommand r name = some d) :
    d ∈ r.commands ∧ foldName d.CmdName = foldName name := by
  unfold lookupCommand at h
  refine ⟨List.mem_of_find?_eq_some h, ?_⟩
  simpa using List.find?_some h

/-- A lookup succeeds as soon as some registered command has the name up to case. -/
theorem lookupCommand_isSome {H : Type} (r : Registry H) (name : String)
    (h : ∃ c ∈ r.commands, foldName c.CmdName = foldName name) :
    ∃ d, lookupCommand r name = some d := by
  obtain ⟨c, hc, hname⟩ := h
  cases hfind : lookupCommand r name with
  | some d => exact ⟨d, rfl⟩
  | none =>
    unfold lookupCommand at hfind
    have := List.find?_eq_none.mp hfind c hc
    simp [hname] at this

/-- The matcher on a message whose leading token is a registered command. -/
theorem matchMessage_command {H : Type} (r : Registry H) (text tok : String)
    (d : HandlerDoc H) (htok : leadingToken text = some tok)
    (hd : lookupCommand r tok = some d) :
    matchMessage r text = ⟨some ⟨.command, d.CmdHandler, commandFields text⟩, []⟩ := by
  simp [matchMessage, htok, hd]

/-- The matcher on a message that is not a command. -/
theorem matchMessage_nonCommand {H : Type} (r : Registry H) (text : String)
    (h : ∀ tok, leadingToken text = some tok → lookupCommand r tok = none) :
    matchMessage r text = matchNonCommand r text := by
  unfold matchMessage
  cases htok : leadingToken text with
  | none => rfl
  | some tok => simp [h tok htok]

/-- The handlers that `dispatch` invokes are the handler of the matcher's plan. -/
theorem dispatch_invoked {H : Type} (r : Registry H) (m : Message) :
    (dispatch r m).invoked =
      (matchMessage r m.text).plan.toList.map (fun plan => (plan.handler, ⟨m, plan.fields⟩)) := by
  cases h : (matchMessage r m.text).plan <;> simp [dispatch, h]

/-- The patterns that `dispatch` tests are those the matcher tests. -/
theorem dispatch_tried {H : Type} (r : Registry H) (m : Message) :
    (dispatch r m).tried = (matchMessage r m.text).tried := by
  cases h : (matchMessage r m.text).plan <;> simp [dispatch, h]

/-- The field example of the specification: a stretch between backticks is one field. -/
theorem commandFields_backticks :
    commandFields "echo `hello world` extra" = ["hello world", "extra"] := by
  decide

/-- The expressions compiled from the two patterns print back to the patterns. -/
theorem regexpCompile_source :
    (regexpCompile thanksPattern).map Regex.source = some thanksPattern.data ∧
      (regexpCompile wordBoundaryPattern).map Regex.source =
        some wordBoundaryPattern.data := by
  decide

end Victor

namespace Victor

/-! ## The dispatch core: claims -/

/-- C8: the pattern that `addHandlers` registers for `thanksFunc` is not the word-boundary
pattern: the `\b` of its string literal denote the backspace character U+0008, so the
registered expression asks for a backspace on both sides of the words and does not match
`thanks bro`, which the word-boundary pattern matches; the message is routed to the
default handler, which answers `Unrecognized command`. -/
theorem thanks_pattern_misses_thanks_bro :
    goInterpret thanksPatternLiteral.data = some thanksPattern.data ∧
      thanksPattern.data.head? = some (Char.ofNat 8) ∧
      thanksPattern ≠ wordBoundaryPattern ∧
      (regexpCompile thanksPattern).map (fun re => re.MatchString "thanks bro") = some false ∧
      (regexpCompile wordBoundaryPattern).map (fun re => re.MatchString "thanks bro") =
        some true ∧
      ∃ r, addHandlers (Registry.new HandlerFunc) = .ok r ∧
        ∀ m : Message, m.text = "thanks bro" →
          (dispatch r m).invoked = [(.defaultFunc, ⟨m, []⟩)] ∧
          replies r m = [⟨m.channelID,
            r"Unrecognized command. Type `help` to see supported commands."⟩] := by
  refine ⟨by decide, by decide, by decide, by decide, by decide, ?_⟩
  obtain ⟨r, hr, hplan⟩ : ∃ r, addHandlers (Registry.new HandlerFunc) = .ok r ∧
      (matchMessage r "thanks bro").plan.map (fun p => (p.handler, p.fields)) =
        some (.defaultFunc, []) := by
    refine ⟨_, rfl, ?_⟩
    decide
  refine ⟨r, hr, ?_⟩
  intro m hm
  have hinv : (dispatch r m).invoked = [(.defaultFunc, ⟨m, []⟩)] := by
    rw [dispatch_invoked, hm]
    cases hp : (matchMessage r "thanks bro").plan with
    | none => simp [hp] at hplan
    | some p =>
      simp only [hp, Option.map_some', Option.some.injEq, Prod.mk.injEq] at hplan
      simp [hplan.1, hplan.2]
  refine ⟨hinv, ?_⟩
  simp only [replies, hinv]
  rfl

/-- C9: commands take priority over patterns.  When the leading token of a message names a
registered command, up to case, and the text also matches a registered pattern, `dispatch`
invokes the handler of that command, with the fields of the message, and tests no pattern.
Whenever `dispatch` tests a pattern, the message names no registered command.  At most one
handler is invoked per message. -/
theorem commands_take_priority {H : Type} (r : Registry H) (m : Message) :
    (∀ tok, leadingToken m.text = some tok →
        (∃ c ∈ r.commands, foldName c.CmdName = foldName tok) →
        (∃ p ∈ r.patterns, p.regex.MatchString m.text = true) →
        ∃ d ∈ r.commands, foldName d.CmdName = foldName tok ∧
          (dispatch r m).invoked = [(d.CmdHandler, ⟨m, commandFields m.text⟩)] ∧
          (dispatch r m).tried = []) ∧
      ((dispatch r m).tried ≠ [] →
        ∀ tok, leadingToken m.text = some tok →
          ∀ c ∈ r.commands, foldName c.CmdName ≠ foldName tok) ∧
      (dispatch r m).invoked.length ≤ 1 := by
  refine ⟨?_, ?_, ?_⟩
  · intro tok htok hcmd _
    obtain ⟨d, hd⟩ := lookupCommand_isSome r tok hcmd
    obtain ⟨hmem, hname⟩ := lookupCommand_some r tok d hd
    refine ⟨d, hmem, hname, ?_, ?_⟩
    · rw [dispatch_invoked, matchMessage_command r m.text tok d htok hd]
      rfl
    · rw [dispatch_tried, matchMessage_command r m.text tok d htok hd]
  · intro htried tok htok c hc hname
    obtain ⟨d, hd⟩ := lookupCommand_isSome r tok ⟨c, hc, hname⟩
    apply htried
    rw [dispatch_tried, matchMessage_command r m.text tok d htok hd]
  · rw [dispatch_invoked]
    cases (matchMessage r m.text).plan <;> simp

/-- Witness of C9: `HI to this channel` names the command `hi` and holds the letters `hi`
of the pattern; the handler of the command, `byeFunc`, is invoked and no pattern is
tested. -/
theorem commands_take_priority_witness :
    ∃ d ∈ sampleRegistry.commands, foldName d.CmdName = foldName "HI" ∧
      (dispatch sampleRegistry sampleMessage).invoked =
        [(d.CmdHandler, ⟨sampleMessage, commandFields sampleMessage.text⟩)] ∧
      (dispatch sampleRegistry sampleMessage).tried = [] :=
  (commands_take_priority sampleRegistry sampleMessage).1 "HI" (by decide)
    ⟨_, List.mem_singleton.mpr rfl, by decide⟩
    ⟨_, List.mem_singleton.mpr rfl, by decide⟩

end Victor
